import Mathlib

/-!
Shallow embedding of `src/scripts/convert_audio_to_code.py`.

The script walks an input directory, collects every file whose name ends in
the exact string ".wav", decodes each as 16-bit little-endian PCM (asserting
16-bit width, 11025 Hz, mono), and then emits three kinds of C++ text
artifacts: an identifier-enumeration header (`sample_id.hpp`), a
declarations-and-lookup header (`audio_samples.hpp`), and one `.cpp` data
file per sample.

We model one run as a pure function of the traversal-ordered list of
directory entries.  A directory entry is a `WavFile`: its file name (the
basename yielded by `os.walk`) together with the WAV header fields the
script inspects (`getsampwidth`, `getframerate`, `getnchannels`,
`getnframes`) and the raw frame payload bytes returned by `readframes`.
Python exceptions (the `assert`s in `get_samples`, `struct.error` from
`struct.unpack`) are modelled with `Except String`; the module-level
mutable globals `SAMPLE_RATE` and `TOTAL_NUMBER_OF_BYTES` (both initially
`0`) are threaded explicitly through `collectAux`.
-/

deriving instance DecidableEq for Except

/-- One input directory entry: the file's basename plus the WAV fields and
raw data bytes the script reads.  `frames` is the byte string returned by
`wav.readframes(wav.getnframes())`, one `Nat` per byte. -/
structure WavFile where
  path : String
  sampwidth : Nat
  framerate : Nat
  nchannels : Nat
  nframes : Nat
  frames : List Nat
deriving Repr, DecidableEq

/-- Mirrors the `SampleMetadata` dataclass of the script. -/
structure SampleMetadata where
  full_path : String
  sample_name : String
  samples : List Int
  num_samples : Nat
deriving Repr, DecidableEq

/-- `struct.unpack` of one little-endian signed 16-bit value from two
bytes, as done by the `'<...h'` format: low byte first, result in
`[-32768, 32767]`. -/
def int16OfBytes (lo hi : Nat) : Int :=
  let u := lo + 256 * hi
  if u < 32768 then (u : Int) else (u : Int) - 65536

/-- `struct.unpack(f'<{n}h', frames)`: consecutive byte pairs decoded as
little-endian signed 16-bit integers. -/
def decodePCM16LE : List Nat → List Int
  | lo :: hi :: rest => int16OfBytes lo hi :: decodePCM16LE rest
  | _ => []

/-- Re-encoding of one signed 16-bit value back to its two little-endian
bytes (the inverse direction of `int16OfBytes`, used to state the lossless
round-trip property). -/
def encodeInt16LE (v : Int) : List Nat :=
  let u := (v % 65536).toNat
  [u % 256, u / 256]

/-- Re-encoding of a sample sequence to its little-endian byte string. -/
def encodePCM16LE (vs : List Int) : List Nat :=
  vs.flatMap encodeInt16LE

/-- The three format constraints asserted by `get_samples`. -/
def validFormat (w : WavFile) : Prop :=
  w.sampwidth = 2 ∧ w.framerate = 11025 ∧ w.nchannels = 1

instance (w : WavFile) : Decidable (validFormat w) := by
  unfold validFormat; infer_instance

/-- `get_samples(wav_file)`: asserts 16-bit width, 11025 Hz and mono (in
that order, so the first violated constraint names the error), then
unpacks the frame bytes with `struct.unpack(f'<{num_samples}h', frames)`,
which requires the buffer to hold exactly `2 * num_samples` bytes.  The
error strings are the assertion messages of the script. -/
def get_samples (w : WavFile) : Except String (List Int) :=
  if w.sampwidth ≠ 2 then .error "WAV file is not 16-bit"
  else if w.framerate ≠ 11025 then .error "WAV file is not 11025 Hz"
  else if w.nchannels ≠ 1 then .error "WAV file is not mono"
  else if w.frames.length = 2 * w.nframes then .ok (decodePCM16LE w.frames)
  else .error "struct.error: unpack requires a buffer of 2 * nframes bytes"

/-- `os.path.splitext(basename)[0]`: drop the extension starting at the
last dot, except that leading dots of the basename never start an
extension. -/
def sampleNameOf (b : String) : String :=
  let cs := b.toList
  let lead := cs.takeWhile (fun c => c = '.')
  let rest := cs.drop lead.length
  let root :=
    if rest.contains '.' then ((rest.reverse.dropWhile (fun c => c ≠ '.')).drop 1).reverse
    else rest
  String.mk (lead ++ root)

/-- The discovery predicate of `collect_wav_samples_files`:
`file.endswith(".wav")`, case-sensitive — i.e. the character list of the
name ends with the four characters `.wav`. -/
def isWavFileName (name : String) : Bool :=
  List.isSuffixOf ".wav".toList name.toList

/-- Python's `str.upper()` on an identifier: uppercase each character
(`Char.toUpper` maps exactly the ASCII lowercase letters, as `str.upper`
does on ASCII file names). -/
def upperName (s : String) : String :=
  String.mk (s.toList.map Char.toUpper)

/-- The wav-file list built by the `os.walk` loop of
`collect_wav_samples_files`: the directory entries whose basenames end in
".wav", in traversal order. -/
def discoveredFiles (fs : List WavFile) : List WavFile :=
  fs.filter (fun w => isWavFileName w.path)

/-- The per-file loop of `collect_wav_samples_files`, threading the
module-level globals `SAMPLE_RATE` and `TOTAL_NUMBER_OF_BYTES`
explicitly.  On success of `get_samples` the script sets
`SAMPLE_RATE = wav.getframerate()` and accumulates
`TOTAL_NUMBER_OF_BYTES += data.num_samples * 2`; `num_samples` is the
length of the decoded sample list (the script calls the pure
`get_samples` twice on the same file, with identical results).  A raised
assertion propagates and aborts the whole loop. -/
def collectAux : List WavFile → List SampleMetadata → Nat → Nat →
    Except String (List SampleMetadata × Nat × Nat)
  | [], acc, rate, total => .ok (acc.reverse, rate, total)
  | w :: ws, acc, _, total =>
    match get_samples w with
    | .error e => .error e
    | .ok s =>
      let md : SampleMetadata :=
        { full_path := w.path, sample_name := sampleNameOf w.path
          , samples := s, num_samples := s.length }
      collectAux ws (md :: acc) w.framerate (total + s.length * 2)

/-- `collect_wav_samples_files(directory)`: discovery, then the decode
loop, starting from the initial global values `SAMPLE_RATE = 0` and
`TOTAL_NUMBER_OF_BYTES = 0`.  Returns the sample list together with the
final values of the two globals. -/
def collect_wav_samples_files (fs : List WavFile) :
    Except String (List SampleMetadata × Nat × Nat) :=
  collectAux (discoveredFiles fs) [] 0 0

/-- One line of the emitted `enum class AUDIO_SAMPLE_ID` body:
`NAME = <number>`, `NAME = OTHER`, or a bare `NAME` (implicit C++
enumerator value: previous value plus one). -/
inductive EnumEntry where
  | explicitVal : String → Nat → EnumEntry
  | aliasTo : String → String → EnumEntry
  | implicit : String → EnumEntry
deriving Repr, DecidableEq

/-- The enumerator's spelled name. -/
def EnumEntry.name : EnumEntry → String
  | .explicitVal n _ => n
  | .aliasTo n _ => n
  | .implicit n => n

/-- The enumerator lines emitted by the `for i, sample in
enumerate(samples)` loop of `create_header_file_for_sample_id`: the first
sample is emitted as `NAME = BEGIN_SAMPLES`, every later one as a bare
`NAME,`. -/
def enumBody : List SampleMetadata → List EnumEntry
  | [] => []
  | s :: rest =>
    EnumEntry.aliasTo (upperName s.sample_name) "BEGIN_SAMPLES" ::
      rest.map (fun r => EnumEntry.implicit (upperName r.sample_name))

/-- The full enumerator list of the emitted `enum class AUDIO_SAMPLE_ID`:
`BEGIN_SAMPLES = 0`, the per-sample lines, then `END_SAMPLES,` and
`NUM_SAMPLES  = END_SAMPLES`. -/
def sampleIdEnumEntries (mds : List SampleMetadata) : List EnumEntry :=
  EnumEntry.explicitVal "BEGIN_SAMPLES" 0 ::
    (enumBody mds ++
      [EnumEntry.implicit "END_SAMPLES",
       EnumEntry.aliasTo "NUM_SAMPLES" "END_SAMPLES"])

/-- C++ enumerator-value assignment: an explicit `= v` takes value `v`, an
alias `= OTHER` takes the value of the most recently declared enumerator
named `OTHER`, a bare name takes the previous value plus one (zero at the
front).  Returns the enumerators with their values, in declaration
order. -/
def assignGo : List (String × Nat) → Nat → List EnumEntry → List (String × Nat)
  | acc, _, [] => acc.reverse
  | acc, _, .explicitVal n v :: es => assignGo ((n, v) :: acc) (v + 1) es
  | acc, _, .aliasTo n t :: es =>
    let v := (((acc.find? (fun p => p.1 == t)).map Prod.snd).getD 0)
    assignGo ((n, v) :: acc) (v + 1) es
  | acc, next, .implicit n :: es => assignGo ((n, next) :: acc) (next + 1) es

/-- Values of a C++ enumerator list, in declaration order. -/
def assignEnum (es : List EnumEntry) : List (String × Nat) :=
  assignGo [] 0 es

/-- `(name, next), (name, next+1), ...`: the values a run of bare
enumerator names receives. -/
def implicitVals : List String → Nat → List (String × Nat)
  | [], _ => []
  | nm :: rest, next => (nm, next) :: implicitVals rest (next + 1)

/-- Closed form of `assignEnum (sampleIdEnumEntries mds)`. -/
def expectedEnumVals : List SampleMetadata → List (String × Nat)
  | [] => [("BEGIN_SAMPLES", 0), ("END_SAMPLES", 1), ("NUM_SAMPLES", 1)]
  | s :: rest =>
    ("BEGIN_SAMPLES", 0) :: (upperName s.sample_name, 0) ::
      (implicitVals (rest.map (fun r => upperName r.sample_name)) 1 ++
        [("END_SAMPLES", rest.length + 1), ("NUM_SAMPLES", rest.length + 1)])

/-- Structural content of the emitted `sample_id.hpp`: the
`_TOTAL_NUMBER_OF_BYTES` constant, the `SAMPLE_RATE` constant, and the
enumerator lines of `enum class AUDIO_SAMPLE_ID`. -/
structure SampleIdHeader where
  totalBytes : Nat
  sample_rate : Nat
  enumEntries : List EnumEntry
deriving Repr, DecidableEq

/-- `create_header_file_for_sample_id(samples)`, reading the globals
`TOTAL_NUMBER_OF_BYTES` and `SAMPLE_RATE` (passed explicitly here). -/
def create_header_file_for_sample_id (mds : List SampleMetadata)
    (total rate : Nat) : SampleIdHeader :=
  { totalBytes := total, sample_rate := rate
    , enumEntries := sampleIdEnumEntries mds }

/-- Structural content of the emitted `audio_samples.hpp`: the
`TOTAL_NUMBER_OF_BYTES` constant, one `extern std::array<std::int16_t, n>
name;` declaration per sample (as `(name, n)`), and the
`sample_lookup` initializer entries.  Each initializer entry is
`Audio_sample_location_and_size{ name.data(), name.size() }`; since
`name` is declared as `std::array<std::int16_t, num_samples>`,
`name.size()` is that sample's `num_samples`, so an entry is modelled as
the pair (referenced array symbol, element count). -/
structure SamplesHeader where
  totalBytes : Nat
  externDecls : List (String × Nat)
  lookupEntries : List (String × Nat)
deriving Repr, DecidableEq

/-- `create_header_file_for_samples(samples)`, reading the global
`TOTAL_NUMBER_OF_BYTES` (passed explicitly). -/
def create_header_file_for_samples (mds : List SampleMetadata)
    (total : Nat) : SamplesHeader :=
  { totalBytes := total
    , externDecls := mds.map (fun m => (m.sample_name, m.num_samples))
    , lookupEntries := mds.map (fun m => (m.sample_name, m.num_samples)) }

/-- Structural content of one emitted per-sample `.cpp` file: its file
name, the defined array symbol and size, and the literal values of the
array initializer. -/
structure CppFile where
  fileName : String
  arrayName : String
  arraySize : Nat
  values : List Int
deriving Repr, DecidableEq

/-- `create_cpp_files(samples)`: one data artifact per sample, in list
order, named `{sample_name}.cpp`, defining
`std::array<std::int16_t, num_samples> sample_name` with the sample
values as the literal initializer list. -/
def create_cpp_files (mds : List SampleMetadata) : List CppFile :=
  mds.map (fun m =>
    { fileName := m.sample_name ++ ".cpp", arrayName := m.sample_name
      , arraySize := m.num_samples, values := m.samples })

/-- Everything one run writes, structurally. -/
structure RunArtifacts where
  samplesHeader : SamplesHeader
  sampleIdHeader : SampleIdHeader
  cppFiles : List CppFile
deriving Repr, DecidableEq

/-- `main()`: load and validate everything via
`collect_wav_samples_files`, and only then emit the three artifact
categories (in the script's call order: `create_header_file_for_samples`,
`create_header_file_for_sample_id`, `create_cpp_files`).  A validation
failure propagates before any emission happens. -/
def mainPipeline (fs : List WavFile) : Except String RunArtifacts :=
  match collect_wav_samples_files fs with
  | .error e => .error e
  | .ok (mds, rate, total) =>
    .ok { samplesHeader := create_header_file_for_samples mds total
          , sampleIdHeader := create_header_file_for_sample_id mds total rate
          , cppFiles := create_cpp_files mds }

/-- The `NUM_SAMPLES` enumerator's value in the run's emitted
`sample_id.hpp` (`NUM_SAMPLES` is always the last emitted enumerator), or
`none` when the run aborts with an error. -/
def runNumSamplesValue (fs : List WavFile) : Option Nat :=
  match mainPipeline fs with
  | .ok A => ((assignEnum A.sampleIdHeader.enumEntries).getLast?).map Prod.snd
  | .error _ => none

/-- The `SAMPLE_RATE` constant emitted in the run's `sample_id.hpp`, or
`none` when the run aborts. -/
def runSampleRateValue (fs : List WavFile) : Option Nat :=
  match mainPipeline fs with
  | .ok A => some A.sampleIdHeader.sample_rate
  | .error _ => none

/-- The `sample_lookup` initializer entries of the run's emitted
`audio_samples.hpp`, or `none` when the run aborts. -/
def runLookupEntries (fs : List WavFile) : Option (List (String × Nat)) :=
  match mainPipeline fs with
  | .ok A => some A.samplesHeader.lookupEntries
  | .error _ => none

/-- The per-sample `.cpp` artifacts of a run, or `none` when the run
aborts. -/
def runCppFiles (fs : List WavFile) : Option (List CppFile) :=
  match mainPipeline fs with
  | .ok A => some A.cppFiles
  | .error _ => none

/-- Relation between a discovered wav file and the `SampleMetadata` the
loader builds for it. -/
def SampleOfFile (w : WavFile) (md : SampleMetadata) : Prop :=
  get_samples w = .ok md.samples ∧ md.num_samples = md.samples.length ∧
    md.sample_name = sampleNameOf w.path ∧ md.full_path = w.path

/-- The run-wide values the emitted text depends on besides the sample
list: the two module-level globals interpolated into the headers and the
script basename interpolated into the warning banner
(`os.path.basename(__file__)`, which is `"convert_audio_to_code.py"` in
the actual run). -/
structure RunContext where
  sample_rate : Nat
  total_number_of_bytes : Nat
  script_name : String
deriving Repr, DecidableEq

/-- The `generated_warning` banner prefixed verbatim to every artifact. -/
def generated_warning (script_name : String) : String :=
  "\n////////////////////////////////////////////////////////////////////////////////\n///////////////////// THIS FILE IS AUTOGENERATED ///////////////////////////////\n///////////////////// DO NOT EDIT !!!!!!        ////////////////////////////////\n/// created by " ++ script_name ++
  "\n////////////////////////////////////////////////////////////////////////////////\n"

/-- The per-sample lines of the `enum class AUDIO_SAMPLE_ID` body, as
emitted text (first sample aliased to the sentinel, the rest bare). -/
def enumBodyLines : List SampleMetadata → List String
  | [] => []
  | s :: rest =>
    ("  " ++ upperName s.sample_name ++ " = BEGIN_SAMPLES,\n") ::
      rest.map (fun r => "  " ++ upperName r.sample_name ++ ",\n")

/-- The full text of the emitted `sample_id.hpp`, mirroring
`create_header_file_for_sample_id` line by line (braces of the C++ text
are written as hex escapes). -/
def renderSampleIdHeaderText (ctx : RunContext) (mds : List SampleMetadata) : String :=
  generated_warning ctx.script_name
  ++ "\n#ifndef AUDIBLE_ALTIMETER_SAMPLE_ID_H\n#define AUDIBLE_ALTIMETER_SAMPLE_ID_H\n\n#include <cstdint>\n#include <cstdio>\n\n"
  ++ "inline constexpr std::size_t _TOTAL_NUMBER_OF_BYTES \x7b " ++ toString ctx.total_number_of_bytes ++ " \x7d;\n\n"
  ++ "inline constexpr std::size_t SAMPLE_RATE \x7b " ++ toString ctx.sample_rate ++ " \x7d;\n"
  ++ "enum class AUDIO_SAMPLE_ID \x7b\n"
  ++ "  BEGIN_SAMPLES = 0,\n"
  ++ String.join (enumBodyLines mds)
  ++ "  END_SAMPLES,\n"
  ++ "  NUM_SAMPLES  = END_SAMPLES\n"
  ++ "\x7d;\n"
  ++ "\n#endif // AUDIBLE_ALTIMETER_AUDIO_SAMPLES_H\n"

/-- The full text of the emitted `audio_samples.hpp`, mirroring
`create_header_file_for_samples` line by line. -/
def renderSamplesHeaderText (ctx : RunContext) (mds : List SampleMetadata) : String :=
  generated_warning ctx.script_name
  ++ "\n#ifndef AUDIBLE_ALTIMETER_AUDIO_SAMPLES_H\n#define AUDIBLE_ALTIMETER_AUDIO_SAMPLES_H\n\n#include \"sample_id.hpp\"\n\n#include <cstdint>\n#include <array>\n\n"
  ++ "\nstruct Audio_sample_location_and_size \x7b\n    std::int16_t* location;\n    std::size_t size;\n\x7d;\n\n"
  ++ "inline constexpr std::size_t TOTAL_NUMBER_OF_BYTES \x7b " ++ toString ctx.total_number_of_bytes ++ " \x7d;\n"
  ++ String.join (mds.map (fun m =>
       "extern std::array<std::int16_t, " ++ toString m.num_samples ++ "> " ++ m.sample_name ++ ";\n"))
  ++ "\nusing sample_lookup_t = std::array<Audio_sample_location_and_size,\n                        static_cast<std::size_t>(AUDIO_SAMPLE_ID::NUM_SAMPLES)>;\ninline constexpr sample_lookup_t sample_lookup = \x7b\n"
  ++ String.join (mds.map (fun m =>
       "    Audio_sample_location_and_size\x7b " ++ m.sample_name ++ ".data(), " ++ m.sample_name ++ ".size() \x7d,\n"))
  ++ "    \x7d;"
  ++ "\n#endif // AUDIBLE_ALTIMETER_AUDIO_SAMPLES_H\n"

/-- The emitted per-sample `.cpp` artifacts as (file name, full text)
pairs, mirroring `create_cpp_files`. -/
def renderCppFilesText (ctx : RunContext) (mds : List SampleMetadata) : List (String × String) :=
  mds.map (fun m =>
    (m.sample_name ++ ".cpp",
     generated_warning ctx.script_name
     ++ "#include \"audio_samples.hpp\"\n\n#include <array>\n#include <cstdint>\n\n"
     ++ "std::array<std::int16_t, " ++ toString m.num_samples ++ "> " ++ m.sample_name ++ " = \x7b\n"
     ++ String.intercalate ",\n" (m.samples.map (fun n => "    " ++ toString n))
     ++ "\n\x7d;"))

theorem decodePCM16LE_length : ∀ bs : List Nat,
    (decodePCM16LE bs).length = bs.length / 2
  | [] => by simp [decodePCM16LE]
  | [b] => by simp [decodePCM16LE]
  | lo :: hi :: rest => by
    simp only [decodePCM16LE, List.length_cons,
      decodePCM16LE_length rest]
    omega

theorem encodeInt16LE_int16OfBytes (lo hi : Nat) (hlo : lo < 256) (hhi : hi < 256) :
    encodeInt16LE (int16OfBytes lo hi) = [lo, hi] := by
  simp only [int16OfBytes, encodeInt16LE]
  split <;> simp only [List.cons.injEq, and_true] <;> constructor <;> omega

theorem encodePCM16LE_decodePCM16LE : ∀ bs : List Nat,
    (∀ b ∈ bs, b < 256) → bs.length % 2 = 0 →
    encodePCM16LE (decodePCM16LE bs) = bs
  | [], _, _ => by simp [decodePCM16LE, encodePCM16LE]
  | [b], _, hlen => by simp at hlen
  | lo :: hi :: rest, hb, hlen => by
    have hlo : lo < 256 := hb lo (by simp)
    have hhi : hi < 256 := hb hi (by simp)
    have hrest : ∀ b ∈ rest, b < 256 := fun b hmem => hb b (by simp [hmem])
    have hrlen : rest.length % 2 = 0 := by simp at hlen; omega
    have ih := encodePCM16LE_decodePCM16LE rest hrest hrlen
    unfold encodePCM16LE at ih ⊢
    simp only [decodePCM16LE, List.flatMap_cons]
    rw [encodeInt16LE_int16OfBytes lo hi hlo hhi, ih]
    rfl

theorem get_samples_ok_inv (w : WavFile) (s : List Int)
    (h : get_samples w = .ok s) :
    s = decodePCM16LE w.frames ∧ w.frames.length = 2 * w.nframes ∧ validFormat w := by
  unfold get_samples at h
  split at h
  · cases h
  · split at h
    · cases h
    · split at h
      · cases h
      · split at h
        · cases h
          refine ⟨rfl, by assumption, ?_⟩
          unfold validFormat
          omega
        · cases h

theorem validFormat_of_get_samples_ok (w : WavFile) (s : List Int)
    (h : get_samples w = .ok s) : validFormat w :=
  (get_samples_ok_inv w s h).2.2

theorem get_samples_error_inv (w : WavFile) (e : String)
    (hwf : validFormat w → w.frames.length = 2 * w.nframes)
    (h : get_samples w = .error e) :
    (e = "WAV file is not 16-bit" ∧ w.sampwidth ≠ 2) ∨
    (e = "WAV file is not 11025 Hz" ∧ w.framerate ≠ 11025) ∨
    (e = "WAV file is not mono" ∧ w.nchannels ≠ 1) := by
  unfold get_samples at h
  split at h
  · cases h; exact Or.inl ⟨rfl, by assumption⟩
  · split at h
    · cases h; exact Or.inr (Or.inl ⟨rfl, by assumption⟩)
    · split at h
      · cases h; exact Or.inr (Or.inr ⟨rfl, by assumption⟩)
      · split at h
        · cases h
        · exact absurd (hwf (by unfold validFormat; omega)) (by assumption)

theorem collectAux_ok_spec : ∀ (ws : List WavFile) (acc : List SampleMetadata)
    (rate total : Nat) (mds : List SampleMetadata) (rate' total' : Nat),
    collectAux ws acc rate total = .ok (mds, rate', total') →
    ∃ tail, mds = acc.reverse ++ tail ∧ List.Forall₂ SampleOfFile ws tail ∧
      total' = total + (tail.map (fun m => m.samples.length * 2)).sum
  | [], acc, rate, total, mds, rate', total', h => by
    refine ⟨[], ?_, List.Forall₂.nil, ?_⟩ <;>
      simp only [collectAux, Except.ok.injEq, Prod.mk.injEq] at h <;> simp [h.1, h.2.2]
  | w :: ws, acc, rate, total, mds, rate', total', h => by
    simp only [collectAux] at h
    cases hg : get_samples w with
    | error e => rw [hg] at h; cases h
    | ok s =>
      rw [hg] at h
      obtain ⟨tail, htail, hf2, htot⟩ :=
        collectAux_ok_spec ws _ w.framerate (total + s.length * 2) mds rate' total' h
      refine ⟨{ full_path := w.path, sample_name := sampleNameOf w.path
                , samples := s, num_samples := s.length } :: tail, ?_, ?_, ?_⟩
      · simpa using htail
      · exact List.Forall₂.cons ⟨hg, rfl, rfl, rfl⟩ hf2
      · simp only [List.map_cons, List.sum_cons]
        omega

theorem collect_ok_spec (fs : List WavFile) (mds : List SampleMetadata)
    (rate total : Nat)
    (h : collect_wav_samples_files fs = .ok (mds, rate, total)) :
    List.Forall₂ SampleOfFile (discoveredFiles fs) mds ∧
      total = (mds.map (fun m => m.samples.length * 2)).sum := by
  obtain ⟨tail, htail, hf2, htot⟩ :=
    collectAux_ok_spec (discoveredFiles fs) [] 0 0 mds rate total h
  simp only [List.reverse_nil, List.nil_append] at htail
  subst htail
  exact ⟨hf2, by omega⟩

theorem forall₂_getElem? {α β : Type} {R : α → β → Prop} :
    ∀ {l₁ : List α} {l₂ : List β}, List.Forall₂ R l₁ l₂ →
    ∀ (i : Nat) (a : α), l₁[i]? = some a → ∃ b, l₂[i]? = some b ∧ R a b := by
  intro l₁ l₂ h
  induction h with
  | nil => intro i a ha; simp at ha
  | cons hr _ ih =>
    intro i a ha
    cases i with
    | zero => simp_all
    | succ j =>
      simp only [List.getElem?_cons_succ] at ha ⊢
      exact ih j a ha

theorem mainPipeline_ok_inv (fs : List WavFile) (A : RunArtifacts)
    (h : mainPipeline fs = .ok A) :
    ∃ mds rate total, collect_wav_samples_files fs = .ok (mds, rate, total) ∧
      A.samplesHeader = create_header_file_for_samples mds total ∧
      A.sampleIdHeader = create_header_file_for_sample_id mds total rate ∧
      A.cppFiles = create_cpp_files mds := by
  unfold mainPipeline at h
  cases hc : collect_wav_samples_files fs with
  | error e => rw [hc] at h; cases h
  | ok t =>
    obtain ⟨mds, rate, total⟩ := t
    rw [hc] at h
    cases h
    exact ⟨mds, rate, total, rfl, rfl, rfl, rfl⟩

theorem mainPipeline_error_of_collect (fs : List WavFile) (e : String)
    (h : collect_wav_samples_files fs = .error e) :
    mainPipeline fs = .error e := by
  unfold mainPipeline
  rw [h]

theorem implicitVals_length : ∀ (names : List String) (next : Nat),
    (implicitVals names next).length = names.length
  | [], _ => rfl
  | _ :: rest, next => by
    simp [implicitVals, implicitVals_length rest (next + 1)]

theorem implicitVals_getElem? : ∀ (names : List String) (next i : Nat),
    (implicitVals names next)[i]? = names[i]?.map (fun nm => (nm, next + i))
  | [], _, _ => by simp [implicitVals]
  | nm :: rest, next, 0 => by simp [implicitVals]
  | nm :: rest, next, i + 1 => by
    simp only [implicitVals, List.getElem?_cons_succ,
      implicitVals_getElem? rest (next + 1) i]
    have h : next + 1 + i = next + (i + 1) := by omega
    rw [h]

theorem assignGo_implicits : ∀ (names : List String)
    (acc : List (String × Nat)) (next : Nat) (rest : List EnumEntry),
    assignGo acc next (names.map EnumEntry.implicit ++ rest)
      = assignGo ((implicitVals names next).reverse ++ acc) (next + names.length) rest
  | [], acc, next, rest => by simp [implicitVals]
  | nm :: names, acc, next, rest => by
    simp only [List.map_cons, List.cons_append, assignGo, List.append_eq]
    rw [assignGo_implicits names ((nm, next) :: acc) (next + 1) rest]
    have hacc : (implicitVals names (next + 1)).reverse ++ (nm, next) :: acc
        = (implicitVals (nm :: names) next).reverse ++ acc := by
      simp [implicitVals]
    have hlen : next + 1 + names.length = next + (nm :: names).length := by
      simp; omega
    rw [hacc, hlen]

theorem assignEnum_sampleId (mds : List SampleMetadata) :
    assignEnum (sampleIdEnumEntries mds) = expectedEnumVals mds := by
  cases mds with
  | nil => rfl
  | cons s rest =>
    unfold assignEnum sampleIdEnumEntries enumBody
    simp only [List.cons_append, assignGo, List.append_eq]
    rw [List.find?_cons_of_pos _ (by rfl)]
    simp only [Option.map_some', Option.getD_some]
    rw [show (rest.map fun r => EnumEntry.implicit (upperName r.sample_name))
          = (rest.map fun r => upperName r.sample_name).map EnumEntry.implicit by
        simp [List.map_map]]
    rw [assignGo_implicits]
    simp only [assignGo, List.append_eq]
    rw [List.find?_cons_of_pos _ (by rfl)]
    simp only [Option.map_some', Option.getD_some]
    simp [expectedEnumVals, List.reverse_append, List.length_map]
    omega

theorem expectedEnumVals_getElem_sample (mds : List SampleMetadata) (i : Nat)
    (hi : i < mds.length) :
    (expectedEnumVals mds)[i + 1]? = mds[i]?.map (fun s => (upperName s.sample_name, i)) := by
  cases mds with
  | nil => simp at hi
  | cons s rest =>
    cases i with
    | zero => simp [expectedEnumVals]
    | succ j =>
      have hj : j < rest.length := by simp at hi; omega
      simp only [expectedEnumVals, List.getElem?_cons_succ]
      rw [List.getElem?_append,
        if_pos (show j < _ by simp [implicitVals_length, hj])]
      rw [implicitVals_getElem?]
      simp only [List.getElem?_map]
      cases hg : rest[j]? with
      | none => simp [hg]
      | some r =>
        simp only [Option.map_some']
        have h : 1 + j = j + 1 := by omega
        rw [h]

theorem expectedEnumVals_sentinels (mds : List SampleMetadata) (hne : mds ≠ []) :
    (expectedEnumVals mds)[mds.length + 1]? = some ("END_SAMPLES", mds.length) ∧
    (expectedEnumVals mds)[mds.length + 2]? = some ("NUM_SAMPLES", mds.length) := by
  cases mds with
  | nil => exact absurd rfl hne
  | cons s rest =>
    have hlen : (implicitVals (rest.map fun r => upperName r.sample_name) 1).length
        = rest.length := by simp [implicitVals_length]
    constructor
    · simp only [expectedEnumVals, List.length_cons, List.getElem?_cons_succ]
      rw [List.getElem?_append_right (by omega)]
      simp [hlen]
    · simp only [expectedEnumVals, List.length_cons, List.getElem?_cons_succ]
      rw [List.getElem?_append_right (by omega)]
      simp [hlen]

theorem expectedEnumVals_getLast? (mds : List SampleMetadata) :
    (expectedEnumVals mds).getLast?
      = some ("NUM_SAMPLES", if mds = [] then 1 else mds.length) := by
  cases mds with
  | nil => rfl
  | cons s rest =>
    have hsplit : expectedEnumVals (s :: rest)
        = (("BEGIN_SAMPLES", 0) :: (upperName s.sample_name, 0) ::
            (implicitVals (rest.map fun r => upperName r.sample_name) 1 ++
              [("END_SAMPLES", rest.length + 1)])) ++
          [("NUM_SAMPLES", rest.length + 1)] := by
      simp [expectedEnumVals]
    rw [hsplit, List.getLast?_concat]
    simp

theorem collectAux_error_of_invalid : ∀ (ws : List WavFile)
    (acc : List SampleMetadata) (rate total : Nat),
    (∀ w ∈ ws, validFormat w → w.frames.length = 2 * w.nframes) →
    (∃ w ∈ ws, ¬ validFormat w) →
    ∃ e, collectAux ws acc rate total = .error e ∧
      ∃ w ∈ ws,
        (e = "WAV file is not 16-bit" ∧ w.sampwidth ≠ 2) ∨
        (e = "WAV file is not 11025 Hz" ∧ w.framerate ≠ 11025) ∨
        (e = "WAV file is not mono" ∧ w.nchannels ≠ 1)
  | [], acc, rate, total, _, hbad => by simp at hbad
  | w0 :: ws, acc, rate, total, hwf, hbad => by
    cases hg : get_samples w0 with
    | error e =>
      refine ⟨e, by simp [collectAux, hg], w0, by simp, ?_⟩
      exact get_samples_error_inv w0 e (hwf w0 (by simp)) hg
    | ok s =>
      have hv0 : validFormat w0 := validFormat_of_get_samples_ok w0 s hg
      obtain ⟨w, hw, hbadw⟩ := hbad
      have hwtail : w ∈ ws := by
        cases List.mem_cons.mp hw with
        | inl h => exact absurd (h ▸ hv0) hbadw
        | inr h => exact h
      obtain ⟨e, he, w', hw', hprop⟩ :=
        collectAux_error_of_invalid ws
          ({ full_path := w0.path, sample_name := sampleNameOf w0.path
             , samples := s, num_samples := s.length } :: acc)
          w0.framerate (total + s.length * 2)
          (fun x hx => hwf x (by simp [hx])) ⟨w, hwtail, hbadw⟩
      exact ⟨e, by simp [collectAux, hg, he], w', by simp [hw'], hprop⟩

/-- C1: for every input .wav file that passes validation, the per-sample
data artifact's literal array lists exactly the file's decoded sample
sequence in order — the frame bytes interpreted as little-endian signed
16-bit integers, one per frame, count equal to the declared frame count —
and re-encoding the artifact's literal array reproduces the original
file's frame bytes exactly (lossless round trip). -/
theorem c1_cpp_artifact_lossless_round_trip (fs : List WavFile)
    (cpps : List CppFile) (hrun : runCppFiles fs = some cpps)
    (i : Nat) (w : WavFile) (hw : (discoveredFiles fs)[i]? = some w)
    (hbytes : ∀ b ∈ w.frames, b < 256) :
    ∃ c, cpps[i]? = some c ∧
      c.values = decodePCM16LE w.frames ∧
      c.values.length = w.nframes ∧
      encodePCM16LE c.values = w.frames := by
  unfold runCppFiles at hrun
  cases hm : mainPipeline fs with
  | error e => rw [hm] at hrun; cases hrun
  | ok A =>
    rw [hm] at hrun
    cases hrun
    obtain ⟨mds, rate, total, hcol, _, _, hcpp⟩ := mainPipeline_ok_inv fs A hm
    obtain ⟨hf2, _⟩ := collect_ok_spec fs mds rate total hcol
    obtain ⟨md, hmd, hS⟩ := forall₂_getElem? hf2 i w hw
    unfold SampleOfFile at hS
    obtain ⟨hgs, hnum, hname, hpath⟩ := hS
    obtain ⟨hdec, hlen2, _⟩ := get_samples_ok_inv w md.samples hgs
    refine ⟨{ fileName := md.sample_name ++ ".cpp", arrayName := md.sample_name
              , arraySize := md.num_samples, values := md.samples }, ?_, ?_, ?_, ?_⟩
    · rw [hcpp]
      simp [create_cpp_files, hmd]
    · exact hdec
    · rw [hdec, decodePCM16LE_length, hlen2]
      omega
    · rw [hdec]
      exact encodePCM16LE_decodePCM16LE w.frames hbytes (by omega)

theorem c1_cpp_artifact_lossless_round_trip_witness :
    runCppFiles [⟨"beep.wav", 2, 11025, 1, 2, [1, 0, 255, 255]⟩]
      = some [⟨"beep.cpp", "beep", 2, [1, -1]⟩] ∧
    (discoveredFiles [⟨"beep.wav", 2, 11025, 1, 2, [1, 0, 255, 255]⟩])[0]?
      = some ⟨"beep.wav", 2, 11025, 1, 2, [1, 0, 255, 255]⟩ ∧
    (∀ b ∈ ([1, 0, 255, 255] : List Nat), b < 256) ∧
    (∃ c, ([⟨"beep.cpp", "beep", 2, [1, -1]⟩] : List CppFile)[0]? = some c ∧
      c.values = decodePCM16LE [1, 0, 255, 255] ∧
      c.values.length = 2 ∧
      encodePCM16LE c.values = [1, 0, 255, 255]) :=
  ⟨by decide, by decide, by decide,
    c1_cpp_artifact_lossless_round_trip
      [⟨"beep.wav", 2, 11025, 1, 2, [1, 0, 255, 255]⟩]
      [⟨"beep.cpp", "beep", 2, [1, -1]⟩] (by decide) 0
      ⟨"beep.wav", 2, 11025, 1, 2, [1, 0, 255, 255]⟩ (by decide) (by decide)⟩

/-- C2: for every run over valid inputs, the `TOTAL_NUMBER_OF_BYTES`
constant emitted in the declarations-and-lookup header equals the sum over
all loaded SampleSets of (number of samples in that set) times 2. -/
theorem c2_total_bytes_is_sum_of_sample_lengths (fs : List WavFile)
    (mds : List SampleMetadata) (rate total : Nat)
    (h : collect_wav_samples_files fs = .ok (mds, rate, total)) :
    (create_header_file_for_samples mds total).totalBytes
      = (mds.map (fun m => m.samples.length * 2)).sum := by
  have hsum := (collect_ok_spec fs mds rate total h).2
  simpa [create_header_file_for_samples] using hsum

theorem c2_total_bytes_is_sum_of_sample_lengths_witness :
    collect_wav_samples_files [⟨"beep.wav", 2, 11025, 1, 2, [1, 0, 255, 255]⟩]
      = .ok ([⟨"beep.wav", "beep", [1, -1], 2⟩], 11025, 4) ∧
    (create_header_file_for_samples [⟨"beep.wav", "beep", [1, -1], 2⟩] 4).totalBytes
      = (([⟨"beep.wav", "beep", [1, -1], 2⟩] : List SampleMetadata).map
          (fun m => m.samples.length * 2)).sum :=
  ⟨by decide,
    c2_total_bytes_is_sum_of_sample_lengths
      [⟨"beep.wav", 2, 11025, 1, 2, [1, 0, 255, 255]⟩]
      [⟨"beep.wav", "beep", [1, -1], 2⟩] 11025 4 (by decide)⟩

/-- C3: for every non-empty loaded sample list of length n, the emitted
enumeration assigns `BEGIN_SAMPLES = 0`, defines the first sample's
uppercased name as an alias of `BEGIN_SAMPLES` (not as a separate value),
gives sample i enumerator value i, appends `END_SAMPLES` with value n
after all real samples, and defines `NUM_SAMPLES` equal to `END_SAMPLES`
(value n). -/
theorem c3_enum_assigns_positions_in_order (mds : List SampleMetadata)
    (hne : mds ≠ []) :
    (assignEnum (sampleIdEnumEntries mds))[0]? = some ("BEGIN_SAMPLES", 0) ∧
    (sampleIdEnumEntries mds)[0]? = some (EnumEntry.explicitVal "BEGIN_SAMPLES" 0) ∧
    (sampleIdEnumEntries mds)[1]?
      = mds[0]?.map (fun s => EnumEntry.aliasTo (upperName s.sample_name) "BEGIN_SAMPLES") ∧
    (∀ i, i < mds.length →
      (assignEnum (sampleIdEnumEntries mds))[i + 1]?
        = mds[i]?.map (fun s => (upperName s.sample_name, i))) ∧
    (assignEnum (sampleIdEnumEntries mds))[mds.length + 1]?
      = some ("END_SAMPLES", mds.length) ∧
    (assignEnum (sampleIdEnumEntries mds))[mds.length + 2]?
      = some ("NUM_SAMPLES", mds.length) := by
  rw [assignEnum_sampleId]
  refine ⟨?_, ?_, ?_, ?_,
    (expectedEnumVals_sentinels mds hne).1, (expectedEnumVals_sentinels mds hne).2⟩
  · cases mds with
    | nil => exact absurd rfl hne
    | cons s rest => simp [expectedEnumVals]
  · simp [sampleIdEnumEntries]
  · cases mds with
    | nil => exact absurd rfl hne
    | cons s rest => simp [sampleIdEnumEntries, enumBody]
  · intro i hi
    exact expectedEnumVals_getElem_sample mds i hi

theorem c3_enum_assigns_positions_in_order_witness :
    (([⟨"a.wav", "beep", [1], 1⟩, ⟨"b.wav", "boop", [2, 3], 2⟩] : List SampleMetadata) ≠ []) ∧
    ((assignEnum (sampleIdEnumEntries [⟨"a.wav", "beep", [1], 1⟩, ⟨"b.wav", "boop", [2, 3], 2⟩]))[0]?
        = some ("BEGIN_SAMPLES", 0) ∧
      (sampleIdEnumEntries [⟨"a.wav", "beep", [1], 1⟩, ⟨"b.wav", "boop", [2, 3], 2⟩])[0]?
        = some (EnumEntry.explicitVal "BEGIN_SAMPLES" 0) ∧
      (sampleIdEnumEntries [⟨"a.wav", "beep", [1], 1⟩, ⟨"b.wav", "boop", [2, 3], 2⟩])[1]?
        = (([⟨"a.wav", "beep", [1], 1⟩, ⟨"b.wav", "boop", [2, 3], 2⟩] : List SampleMetadata))[0]?.map
            (fun s => EnumEntry.aliasTo (upperName s.sample_name) "BEGIN_SAMPLES") ∧
      (∀ i, i < ([⟨"a.wav", "beep", [1], 1⟩, ⟨"b.wav", "boop", [2, 3], 2⟩] : List SampleMetadata).length →
        (assignEnum (sampleIdEnumEntries [⟨"a.wav", "beep", [1], 1⟩, ⟨"b.wav", "boop", [2, 3], 2⟩]))[i + 1]?
          = (([⟨"a.wav", "beep", [1], 1⟩, ⟨"b.wav", "boop", [2, 3], 2⟩] : List SampleMetadata))[i]?.map
              (fun s => (upperName s.sample_name, i))) ∧
      (assignEnum (sampleIdEnumEntries [⟨"a.wav", "beep", [1], 1⟩, ⟨"b.wav", "boop", [2, 3], 2⟩]))[([⟨"a.wav", "beep", [1], 1⟩, ⟨"b.wav", "boop", [2, 3], 2⟩] : List SampleMetadata).length + 1]?
        = some ("END_SAMPLES", ([⟨"a.wav", "beep", [1], 1⟩, ⟨"b.wav", "boop", [2, 3], 2⟩] : List SampleMetadata).length) ∧
      (assignEnum (sampleIdEnumEntries [⟨"a.wav", "beep", [1], 1⟩, ⟨"b.wav", "boop", [2, 3], 2⟩]))[([⟨"a.wav", "beep", [1], 1⟩, ⟨"b.wav", "boop", [2, 3], 2⟩] : List SampleMetadata).length + 2]?
        = some ("NUM_SAMPLES", ([⟨"a.wav", "beep", [1], 1⟩, ⟨"b.wav", "boop", [2, 3], 2⟩] : List SampleMetadata).length)) :=
  ⟨by decide,
    c3_enum_assigns_positions_in_order
      [⟨"a.wav", "beep", [1], 1⟩, ⟨"b.wav", "boop", [2, 3], 2⟩] (by decide)⟩

/-- C4 counterexample: a run over an input directory with zero audio files
emits `NUM_SAMPLES` with value 1 (the implicit `END_SAMPLES` enumerator
follows `BEGIN_SAMPLES = 0`), while the number of discovered input files
is 0 — so `NUM_SAMPLES` does not equal the number of discovered files on
every run. -/
theorem c4_counterexample_empty_run :
    (discoveredFiles ([] : List WavFile)).length = 0 ∧
    runNumSamplesValue [] = some 1 ∧
    runNumSamplesValue [] ≠ some (discoveredFiles ([] : List WavFile)).length := by
  exact ⟨by decide, by decide, by decide⟩

/-- C4 (amended): for every run in which at least one audio file is
discovered and which completes without error, the `NUM_SAMPLES`
enumerator's value in the emitted identifier header equals the number of
input audio files discovered by the loader. -/
theorem c4_num_samples_eq_discovered_count (fs : List WavFile)
    (hne : discoveredFiles fs ≠ []) (hok : runNumSamplesValue fs ≠ none) :
    runNumSamplesValue fs = some (discoveredFiles fs).length := by
  cases hm : mainPipeline fs with
  | error e =>
    unfold runNumSamplesValue at hok
    rw [hm] at hok
    exact absurd rfl hok
  | ok A =>
    obtain ⟨mds, rate, total, hcol, _, hid, _⟩ := mainPipeline_ok_inv fs A hm
    have hlen := ((collect_ok_spec fs mds rate total hcol).1).length_eq
    have hmdsne : mds ≠ [] := by
      intro hnil
      subst hnil
      simp at hlen
      exact hne hlen
    unfold runNumSamplesValue
    rw [hm]
    show Option.map Prod.snd (assignEnum A.sampleIdHeader.enumEntries).getLast?
      = some (discoveredFiles fs).length
    rw [hid]
    simp only [create_header_file_for_sample_id]
    rw [assignEnum_sampleId, expectedEnumVals_getLast?, if_neg hmdsne]
    simp [hlen]

theorem c4_num_samples_eq_discovered_count_witness :
    (discoveredFiles [⟨"beep.wav", 2, 11025, 1, 2, [1, 0, 255, 255]⟩] ≠ []) ∧
    (runNumSamplesValue [⟨"beep.wav", 2, 11025, 1, 2, [1, 0, 255, 255]⟩] ≠ none) ∧
    runNumSamplesValue [⟨"beep.wav", 2, 11025, 1, 2, [1, 0, 255, 255]⟩]
      = some (discoveredFiles [⟨"beep.wav", 2, 11025, 1, 2, [1, 0, 255, 255]⟩]).length :=
  ⟨by decide, by decide,
    c4_num_samples_eq_discovered_count
      [⟨"beep.wav", 2, 11025, 1, 2, [1, 0, 255, 255]⟩] (by decide) (by decide)⟩

/-- C5 counterexample: running the pipeline on an input list with zero
audio files does succeed, but the emitted enumeration has
`NUM_SAMPLES == 1`, not `NUM_SAMPLES == 0` as the claim states. -/
theorem c5_counterexample_num_samples_not_zero :
    runNumSamplesValue [] = some 1 ∧ ¬ runNumSamplesValue [] = some 0 := by
  exact ⟨by decide, by decide⟩

/-- C5 (amended): running the pipeline on an input directory containing
zero audio files completes without raising an error and emits an empty
lookup-table initializer list, but the `NUM_SAMPLES` enumerator's value is
1, not 0, because the implicit `END_SAMPLES` enumerator directly follows
`BEGIN_SAMPLES = 0`. -/
theorem c5_empty_run_no_error_empty_lookup (fs : List WavFile)
    (h : discoveredFiles fs = []) :
    runLookupEntries fs = some [] ∧ runNumSamplesValue fs = some 1 := by
  have hcol : collect_wav_samples_files fs = .ok ([], 0, 0) := by
    unfold collect_wav_samples_files
    rw [h]
    rfl
  have hm : mainPipeline fs
      = .ok { samplesHeader := create_header_file_for_samples [] 0
              , sampleIdHeader := create_header_file_for_sample_id [] 0 0
              , cppFiles := create_cpp_files [] } := by
    unfold mainPipeline
    rw [hcol]
  constructor
  · unfold runLookupEntries
    rw [hm]
    rfl
  · unfold runNumSamplesValue
    rw [hm]
    rfl

theorem c5_empty_run_no_error_empty_lookup_witness :
    (discoveredFiles [⟨"readme.txt", 2, 11025, 1, 2, [1, 0, 255, 255]⟩] = []) ∧
    (runLookupEntries [⟨"readme.txt", 2, 11025, 1, 2, [1, 0, 255, 255]⟩] = some [] ∧
      runNumSamplesValue [⟨"readme.txt", 2, 11025, 1, 2, [1, 0, 255, 255]⟩] = some 1) :=
  ⟨by decide,
    c5_empty_run_no_error_empty_lookup
      [⟨"readme.txt", 2, 11025, 1, 2, [1, 0, 255, 255]⟩] (by decide)⟩

/-- C6: for every input file whose sample width is not 16 bits, whose rate
is not 11025 Hz, or whose channel count is not 1, the run aborts with an
error naming a violated constraint of a discovered file; since all files
are loaded and validated by `collect_wav_samples_files` before `main`
calls any emitter, no artifact is produced, and there is no
skip-and-continue mode.  (The well-formedness hypothesis says every
discovered file that passes the format asserts carries exactly
`2 * nframes` payload bytes, i.e. is a structurally intact wav file.) -/
theorem c6_invalid_format_aborts_run_before_emission (fs : List WavFile)
    (hwf : ∀ w ∈ discoveredFiles fs, validFormat w → w.frames.length = 2 * w.nframes)
    (w : WavFile) (hw : w ∈ discoveredFiles fs) (hbad : ¬ validFormat w) :
    ∃ e, mainPipeline fs = .error e ∧
      (∀ A, mainPipeline fs ≠ .ok A) ∧
      ∃ wbad ∈ discoveredFiles fs,
        (e = "WAV file is not 16-bit" ∧ wbad.sampwidth ≠ 2) ∨
        (e = "WAV file is not 11025 Hz" ∧ wbad.framerate ≠ 11025) ∨
        (e = "WAV file is not mono" ∧ wbad.nchannels ≠ 1) := by
  obtain ⟨e, he, wbad, hwbad, hprop⟩ :=
    collectAux_error_of_invalid (discoveredFiles fs) [] 0 0 hwf ⟨w, hw, hbad⟩
  have hmain : mainPipeline fs = .error e :=
    mainPipeline_error_of_collect fs e he
  refine ⟨e, hmain, ?_, wbad, hwbad, hprop⟩
  intro A hA
  rw [hmain] at hA
  cases hA

theorem c6_invalid_format_aborts_run_before_emission_witness :
    (∀ w ∈ discoveredFiles [⟨"stereo.wav", 2, 11025, 2, 1, [0, 0, 0, 0]⟩],
      validFormat w → w.frames.length = 2 * w.nframes) ∧
    (⟨"stereo.wav", 2, 11025, 2, 1, [0, 0, 0, 0]⟩ : WavFile)
      ∈ discoveredFiles [⟨"stereo.wav", 2, 11025, 2, 1, [0, 0, 0, 0]⟩] ∧
    ¬ validFormat ⟨"stereo.wav", 2, 11025, 2, 1, [0, 0, 0, 0]⟩ ∧
    (∃ e, mainPipeline [⟨"stereo.wav", 2, 11025, 2, 1, [0, 0, 0, 0]⟩] = .error e ∧
      (∀ A, mainPipeline [⟨"stereo.wav", 2, 11025, 2, 1, [0, 0, 0, 0]⟩] ≠ .ok A) ∧
      ∃ wbad ∈ discoveredFiles [⟨"stereo.wav", 2, 11025, 2, 1, [0, 0, 0, 0]⟩],
        (e = "WAV file is not 16-bit" ∧ wbad.sampwidth ≠ 2) ∨
        (e = "WAV file is not 11025 Hz" ∧ wbad.framerate ≠ 11025) ∨
        (e = "WAV file is not mono" ∧ wbad.nchannels ≠ 1)) :=
  ⟨by decide, by decide, by decide,
    c6_invalid_format_aborts_run_before_emission
      [⟨"stereo.wav", 2, 11025, 2, 1, [0, 0, 0, 0]⟩] (by decide)
      ⟨"stereo.wav", 2, 11025, 2, 1, [0, 0, 0, 0]⟩ (by decide) (by decide)⟩

/-- C7: for every loaded sample list and every index i, the i-th entry of
the emitted lookup table is the (storage-array symbol, element count) pair
of sample i, the i-th extern array declaration matches it, and that
sample's enumerator value in the emitted enumeration is exactly i — so
table entries appear in the same order as the enumeration members. -/
theorem c7_lookup_entry_i_matches_enum_position_i (mds : List SampleMetadata)
    (total : Nat) (i : Nat) (s : SampleMetadata) (hs : mds[i]? = some s) :
    (create_header_file_for_samples mds total).lookupEntries[i]?
      = some (s.sample_name, s.num_samples) ∧
    (create_header_file_for_samples mds total).externDecls[i]?
      = some (s.sample_name, s.num_samples) ∧
    (assignEnum (sampleIdEnumEntries mds))[i + 1]?
      = some (upperName s.sample_name, i) := by
  have hi : i < mds.length := by
    by_contra hge
    rw [List.getElem?_eq_none (by omega)] at hs
    cases hs
  refine ⟨?_, ?_, ?_⟩
  · simp [create_header_file_for_samples, hs]
  · simp [create_header_file_for_samples, hs]
  · rw [assignEnum_sampleId, expectedEnumVals_getElem_sample mds i hi, hs]
    rfl

theorem c7_lookup_entry_i_matches_enum_position_i_witness :
    (([⟨"a.wav", "beep", [1], 1⟩, ⟨"b.wav", "boop", [2, 3], 2⟩] : List SampleMetadata))[1]?
      = some ⟨"b.wav", "boop", [2, 3], 2⟩ ∧
    ((create_header_file_for_samples
        [⟨"a.wav", "beep", [1], 1⟩, ⟨"b.wav", "boop", [2, 3], 2⟩] 6).lookupEntries[1]?
      = some ("boop", 2) ∧
    (create_header_file_for_samples
        [⟨"a.wav", "beep", [1], 1⟩, ⟨"b.wav", "boop", [2, 3], 2⟩] 6).externDecls[1]?
      = some ("boop", 2) ∧
    (assignEnum (sampleIdEnumEntries
        [⟨"a.wav", "beep", [1], 1⟩, ⟨"b.wav", "boop", [2, 3], 2⟩]))[1 + 1]?
      = some ("BOOP", 1)) :=
  ⟨by decide,
    c7_lookup_entry_i_matches_enum_position_i
      [⟨"a.wav", "beep", [1], 1⟩, ⟨"b.wav", "boop", [2, 3], 2⟩] 6 1
      ⟨"b.wav", "boop", [2, 3], 2⟩ (by decide)⟩

/-- C8: emission is a deterministic function of the loaded, ordered sample
list and run context — two runs given equal loaded sample lists and equal
run-context values produce byte-identical text for all three artifact
categories (identifier header, declarations-and-lookup header, per-sample
data files). -/
theorem c8_emission_deterministic (c1 c2 : RunContext)
    (m1 m2 : List SampleMetadata) (hc : c1 = c2) (hm : m1 = m2) :
    renderSampleIdHeaderText c1 m1 = renderSampleIdHeaderText c2 m2 ∧
    renderSamplesHeaderText c1 m1 = renderSamplesHeaderText c2 m2 ∧
    renderCppFilesText c1 m1 = renderCppFilesText c2 m2 := by
  subst hc
  subst hm
  exact ⟨rfl, rfl, rfl⟩

theorem c8_emission_deterministic_witness :
    (⟨11025, 4, "convert_audio_to_code.py"⟩ : RunContext)
      = ⟨11025, 4, "convert_audio_to_code.py"⟩ ∧
    ([⟨"beep.wav", "beep", [1, -1], 2⟩] : List SampleMetadata)
      = [⟨"beep.wav", "beep", [1, -1], 2⟩] ∧
    (renderSampleIdHeaderText ⟨11025, 4, "convert_audio_to_code.py"⟩
        [⟨"beep.wav", "beep", [1, -1], 2⟩]
      = renderSampleIdHeaderText ⟨11025, 4, "convert_audio_to_code.py"⟩
        [⟨"beep.wav", "beep", [1, -1], 2⟩] ∧
    renderSamplesHeaderText ⟨11025, 4, "convert_audio_to_code.py"⟩
        [⟨"beep.wav", "beep", [1, -1], 2⟩]
      = renderSamplesHeaderText ⟨11025, 4, "convert_audio_to_code.py"⟩
        [⟨"beep.wav", "beep", [1, -1], 2⟩] ∧
    renderCppFilesText ⟨11025, 4, "convert_audio_to_code.py"⟩
        [⟨"beep.wav", "beep", [1, -1], 2⟩]
      = renderCppFilesText ⟨11025, 4, "convert_audio_to_code.py"⟩
        [⟨"beep.wav", "beep", [1, -1], 2⟩]) :=
  ⟨rfl, rfl,
    c8_emission_deterministic
      ⟨11025, 4, "convert_audio_to_code.py"⟩ ⟨11025, 4, "convert_audio_to_code.py"⟩
      [⟨"beep.wav", "beep", [1, -1], 2⟩] [⟨"beep.wav", "beep", [1, -1], 2⟩] rfl rfl⟩

/-- C9: if the input directory contains zero audio files, the emitted
identifier header defines the `SAMPLE_RATE` constant as 0 — the
module-level initial value — because the loader only sets the run-wide
sample rate inside the per-file decode, which is never reached. -/
theorem c9_zero_files_sample_rate_zero (fs : List WavFile)
    (h : discoveredFiles fs = []) :
    runSampleRateValue fs = some 0 := by
  have hcol : collect_wav_samples_files fs = .ok ([], 0, 0) := by
    unfold collect_wav_samples_files
    rw [h]
    rfl
  have hm : mainPipeline fs
      = .ok { samplesHeader := create_header_file_for_samples [] 0
              , sampleIdHeader := create_header_file_for_sample_id [] 0 0
              , cppFiles := create_cpp_files [] } := by
    unfold mainPipeline
    rw [hcol]
  unfold runSampleRateValue
  rw [hm]
  rfl

theorem c9_zero_files_sample_rate_zero_witness :
    (discoveredFiles [⟨"notes.txt", 2, 11025, 1, 1, [0, 0]⟩] = []) ∧
    runSampleRateValue [⟨"notes.txt", 2, 11025, 1, 1, [0, 0]⟩] = some 0 :=
  ⟨by decide,
    c9_zero_files_sample_rate_zero [⟨"notes.txt", 2, 11025, 1, 1, [0, 0]⟩] (by decide)⟩

/-- C10: discovery matches only files whose names end with the exact
lowercase string ".wav" — a directory entry with any other name (e.g. a
".WAV" casing) is silently excluded: the whole run behaves exactly as if
the entry were absent, so it contributes nothing to any artifact and never
causes a validation error. -/
theorem c10_non_wav_file_excluded (xs ys : List WavFile) (f : WavFile)
    (hf : isWavFileName f.path = false) :
    mainPipeline (xs ++ f :: ys) = mainPipeline (xs ++ ys) := by
  have hdisc : discoveredFiles (xs ++ f :: ys) = discoveredFiles (xs ++ ys) := by
    unfold discoveredFiles
    rw [List.filter_append, List.filter_append,
      List.filter_cons_of_neg (by simp [hf])]
  unfold mainPipeline collect_wav_samples_files
  rw [hdisc]

theorem c10_non_wav_file_excluded_witness :
    isWavFileName "boop.WAV" = false ∧
    mainPipeline ([⟨"beep.wav", 2, 11025, 1, 2, [1, 0, 255, 255]⟩]
        ++ ⟨"boop.WAV", 2, 11025, 1, 1, [7, 0]⟩ :: [])
      = mainPipeline ([⟨"beep.wav", 2, 11025, 1, 2, [1, 0, 255, 255]⟩] ++ []) :=
  ⟨by decide,
    c10_non_wav_file_excluded
      [⟨"beep.wav", 2, 11025, 1, 2, [1, 0, 255, 255]⟩] []
      ⟨"boop.WAV", 2, 11025, 1, 1, [7, 0]⟩ (by decide)⟩
